import Mathlib

/-!
Verification of the NtpClient repository (NtpClient.h / NtpClient.cpp,
namespace amitgdev::ntp_client) against its natural-language specification.

The C++ code is shallowly embedded: machine integers become `Nat` with
explicit bounds (`% 256` models `static_cast<uint8_t>`, well-formedness
predicates record the 8/32-bit ranges), the fallible external collaborators
(Winsock startup, getaddrinfo, socket, setsockopt, sendto, recv) become an
explicit environment record `NetEnv` of their outcomes, and the public entry
point `GetNtpTimestamp` becomes a pure function from hostname and environment
to a result together with the trace of external calls it performed.
The host is modelled as little-endian (the code targets Windows/x86, where
`std::endian::native == std::endian::little`), so `SwapEndiansIfNLE`
performs the byte swap.
-/

set_option maxRecDepth 100000

namespace NtpClient

-- Connection constants (NtpClient.cpp, anonymous namespace)
def kNtpPort : Nat := 123
def kMaxHostnameLength : Nat := 253
-- NTP protocol constants
def kDefaultVersion : Nat := 3
def kClientMode : Nat := 3
def kServerMode : Nat := 4
def kAlarmCondition : Nat := 3
def kMaxValidStratum : Nat := 15
-- Leap indicator shifts and masks
def kLeapMask : Nat := 0x03
def kLeapShift : Nat := 6
def kLeapInvMask : Nat := 0x3F
-- Version shifts and masks
def kVersionMask : Nat := 0x07
def kVersionShift : Nat := 3
def kVersionInvMask : Nat := 0xC7
-- Mode shifts and masks
def kModeMask : Nat := 0x07
def kModeInvMask : Nat := 0xF8
-- Winsock constant AF_INET
def AF_INET : Nat := 2
-- sizeof(NtpMessage): 4 single bytes + two 32-bit words + 4 id bytes
-- + four 64-bit timestamps = 48 bytes
def kNtpMessageSize : Nat := 48

/-- Error codes for NTP operations (enum class NtpError in NtpClient.h). -/
inductive NtpError where
  | kSuccess
  | kWsaInitFailed
  | kInvalidHostname
  | kHostResolutionFailed
  | kSocketCreationFailed
  | kTimeoutFailed
  | kSendFailed
  | kReceiveFailed
  | kInvalidResponse
  deriving DecidableEq, Repr

/-- `std::byteswap` on a 32-bit value: reverses the four bytes.
The argument is read as four base-256 digits (low byte first). -/
def byteswap32 (x : Nat) : Nat :=
  (x % 256) * 2 ^ 24 + (x / 2 ^ 8 % 256) * 2 ^ 16 +
    (x / 2 ^ 16 % 256) * 2 ^ 8 + x / 2 ^ 24 % 256

/-- NTP fixed-point timestamp (class Timestamp): two 32-bit unsigned fields. -/
structure Timestamp where
  seconds : Nat
  fraction : Nat
  deriving DecidableEq, Repr

/-- Both fields are representable as `uint32_t`. -/
@[reducible] def Timestamp.Wf (t : Timestamp) : Prop :=
  t.seconds < 2 ^ 32 ∧ t.fraction < 2 ^ 32

/-- `Timestamp::SwapEndiansIfNLE` on a little-endian host:
`std::byteswap` applied to both 32-bit fields. -/
def Timestamp.SwapEndiansIfNLE (t : Timestamp) : Timestamp :=
  ⟨byteswap32 t.seconds, byteswap32 t.fraction⟩

/-- `Timestamp::Zero`: the distinguished "unset" sentinel. -/
def Timestamp.Zero (t : Timestamp) : Bool :=
  t.seconds == 0 && t.fraction == 0

/-- The fixed 48-byte NTP wire record (class NtpMessage).
Field names follow the C++ members; `ref_clock_id` is four opaque bytes. -/
structure NtpMessage where
  li_vn_mode : Nat
  stratum : Nat
  poll : Nat
  precision : Nat
  sync_distance : Nat
  drift_rate : Nat
  ref_clock_id : Nat × Nat × Nat × Nat
  ref : Timestamp
  orig : Timestamp
  rx : Timestamp
  tx : Timestamp
  deriving DecidableEq, Repr

/-- All fields are representable at their C++ widths. -/
@[reducible] def NtpMessage.Wf (m : NtpMessage) : Prop :=
  m.li_vn_mode < 2 ^ 8 ∧ m.stratum < 2 ^ 8 ∧ m.poll < 2 ^ 8 ∧
    m.precision < 2 ^ 8 ∧ m.sync_distance < 2 ^ 32 ∧ m.drift_rate < 2 ^ 32 ∧
    m.ref.Wf ∧ m.orig.Wf ∧ m.rx.Wf ∧ m.tx.Wf

/-- The all-zero message (`NtpMessage{}`: value-initialized). -/
def NtpMessage.zero : NtpMessage :=
  ⟨0, 0, 0, 0, 0, 0, (0, 0, 0, 0), ⟨0, 0⟩, ⟨0, 0⟩, ⟨0, 0⟩, ⟨0, 0⟩⟩

/-- `NtpMessage::SwapEndiansIfNLE`: normalizes all four embedded timestamps
and the two 32-bit opaque fields; single-byte fields are untouched. -/
def NtpMessage.SwapEndiansIfNLE (m : NtpMessage) : NtpMessage :=
  { m with
    ref := m.ref.SwapEndiansIfNLE
    orig := m.orig.SwapEndiansIfNLE
    rx := m.rx.SwapEndiansIfNLE
    tx := m.tx.SwapEndiansIfNLE
    sync_distance := byteswap32 m.sync_distance
    drift_rate := byteswap32 m.drift_rate }

/-- `NtpMessage::SetMode`: the trailing `% 256` models the
`static_cast<uint8_t>` of the stored result. -/
def NtpMessage.SetMode (m : NtpMessage) (mode : Nat) : NtpMessage :=
  { m with li_vn_mode :=
      ((m.li_vn_mode &&& kModeInvMask) ||| (mode &&& kModeMask)) % 256 }

/-- `NtpMessage::Mode`. -/
def NtpMessage.Mode (m : NtpMessage) : Nat :=
  m.li_vn_mode &&& kModeMask

/-- `NtpMessage::SetVersion`. -/
def NtpMessage.SetVersion (m : NtpMessage) (version : Nat) : NtpMessage :=
  { m with li_vn_mode :=
      ((m.li_vn_mode &&& kVersionInvMask) |||
        ((version &&& kVersionMask) <<< kVersionShift)) % 256 }

/-- `NtpMessage::Version`. -/
def NtpMessage.Version (m : NtpMessage) : Nat :=
  (m.li_vn_mode >>> kVersionShift) &&& kVersionMask

/-- `NtpMessage::SetLeapIndicator`. -/
def NtpMessage.SetLeapIndicator (m : NtpMessage) (leap_indicator : Nat) :
    NtpMessage :=
  { m with li_vn_mode :=
      ((m.li_vn_mode &&& kLeapInvMask) |||
        ((leap_indicator &&& kLeapMask) <<< kLeapShift)) % 256 }

/-- `NtpMessage::LeapIndicator`. -/
def NtpMessage.LeapIndicator (m : NtpMessage) : Nat :=
  (m.li_vn_mode >>> kLeapShift) &&& kLeapMask

/-- `NtpMessage::IsValid`: validates the NTP response message. -/
def NtpMessage.IsValid (m : NtpMessage) : Bool :=
  m.Mode == kServerMode && m.LeapIndicator != kAlarmCondition &&
    decide (m.stratum > 0) && decide (m.stratum ≤ kMaxValidStratum) &&
    !m.tx.Zero

/-- The public result type (struct NtpTimestamp in NtpClient.h). -/
structure NtpTimestamp where
  seconds : Nat
  fraction : Nat
  deriving DecidableEq, Repr

/-- The resolved address data `GetNtpTimestamp` inspects (`ai_family`). -/
structure AddrInfo where
  family : Nat
  deriving DecidableEq, Repr

/-- An `std::error_code` as the send/receive helpers produce it: either a
system-category code (from `WSAGetLastError`) or an NTP-category code made
by `MakeErrorCode`. -/
inductive SockErrorCode where
  | system
  | ntp (e : NtpError)
  deriving DecidableEq, Repr

/-- Outcomes of the external collaborators for one invocation: Winsock
startup, `getaddrinfo`, `socket`, the two `setsockopt` timeout calls,
`sendto` and `recv`. For send/receive, `none` models `SOCKET_ERROR`; for
receive, `some (n, raw)` models a `recv` call delivering `n` bytes whose
48-byte record content is `raw` (still in network byte order). -/
structure NetEnv where
  wsaOk : Bool
  gaiRet : Nat
  gaiResult : Option AddrInfo
  socketOk : Bool
  timeoutOk : Bool
  sendResult : Option Nat
  recvResult : Option (Nat × NtpMessage)
  deriving DecidableEq, Repr

/-- External calls the entry point can make. -/
inductive NetEvent where
  | wsaStartup
  | resolve
  | socketCreate
  | setTimeout
  | send
  | recv
  deriving DecidableEq, Repr

/-- A received message with mode/leap packed byte `li`, stratum `strat`
and transmit timestamp `t` (all other fields zero). -/
def mkC1Msg (li strat : Nat) (t : Timestamp) : NtpMessage :=
  { NtpMessage.zero with li_vn_mode := li, stratum := strat, tx := t }

theorem byteswap32_digits (a b c d : Nat) (ha : a < 256) (hb : b < 256)
    (hc : c < 256) (hd : d < 256) :
    byteswap32 (a * 2 ^ 24 + b * 2 ^ 16 + c * 2 ^ 8 + d) =
      d * 2 ^ 24 + c * 2 ^ 16 + b * 2 ^ 8 + a := by
  unfold byteswap32
  have h1 : (a * 2 ^ 24 + b * 2 ^ 16 + c * 2 ^ 8 + d) % 256 = d := by omega
  have h2 : (a * 2 ^ 24 + b * 2 ^ 16 + c * 2 ^ 8 + d) / 2 ^ 8 % 256 = c := by
    omega
  have h3 : (a * 2 ^ 24 + b * 2 ^ 16 + c * 2 ^ 8 + d) / 2 ^ 16 % 256 = b := by
    omega
  have h4 : (a * 2 ^ 24 + b * 2 ^ 16 + c * 2 ^ 8 + d) / 2 ^ 24 % 256 = a := by
    omega
  rw [h1, h2, h3, h4]

theorem byteswap32_involution (x : Nat) (h : x < 2 ^ 32) :
    byteswap32 (byteswap32 x) = x := by
  obtain ⟨a, b, c, d, ha, hb, hc, hd, hx⟩ :
      ∃ a b c d, a < 256 ∧ b < 256 ∧ c < 256 ∧ d < 256 ∧
        x = a * 2 ^ 24 + b * 2 ^ 16 + c * 2 ^ 8 + d :=
    ⟨x / 2 ^ 24, x / 2 ^ 16 % 256, x / 2 ^ 8 % 256, x % 256,
      by omega, by omega, by omega, by omega, by omega⟩
  subst hx
  rw [byteswap32_digits a b c d ha hb hc hd,
    byteswap32_digits d c b a hd hc hb ha]

/-- C1: `IsValid` returns true iff mode is 4 (server), the leap indicator is
not 3 (alarm), the stratum lies in [1, 15], and the transmit timestamp is not
the zero sentinel; in particular stratum 0 and 16 are rejected, stratum 15
accepted, and each of the four conditions alone suffices to reject. -/
theorem C1_is_valid_characterization :
    (∀ m : NtpMessage, m.IsValid = true ↔
      (m.Mode = 4 ∧ m.LeapIndicator ≠ 3 ∧ 1 ≤ m.stratum ∧ m.stratum ≤ 15 ∧
        ¬(m.tx.seconds = 0 ∧ m.tx.fraction = 0))) ∧
    (mkC1Msg 4 0 ⟨3923987981, 0⟩).IsValid = false ∧
    (mkC1Msg 4 16 ⟨3923987981, 0⟩).IsValid = false ∧
    (mkC1Msg 4 15 ⟨3923987981, 0⟩).IsValid = true ∧
    (mkC1Msg 3 1 ⟨3923987981, 0⟩).IsValid = false ∧
    (mkC1Msg 196 1 ⟨3923987981, 0⟩).IsValid = false ∧
    (mkC1Msg 4 1 ⟨0, 0⟩).IsValid = false := by
  refine ⟨?_, by decide, by decide, by decide, by decide, by decide, by decide⟩
  intro m
  simp only [NtpMessage.IsValid, Timestamp.Zero, kServerMode, kAlarmCondition,
    kMaxValidStratum, Bool.and_eq_true, beq_iff_eq, bne_iff_ne, ne_eq,
    decide_eq_true_eq, Bool.not_eq_true', Bool.and_eq_false_iff,
    beq_eq_false_iff_ne]
  constructor
  · rintro ⟨⟨⟨⟨h1, h2⟩, h3⟩, h4⟩, h5⟩
    exact ⟨h1, h2, h3, h4, by tauto⟩
  · rintro ⟨h1, h2, h3, h4, h5⟩
    exact ⟨⟨⟨⟨h1, h2⟩, h3⟩, h4⟩, by tauto⟩

/-- C4: applying the byte-order normalization `SwapEndiansIfNLE` twice yields
a message bit-identical to the original (for every message whose fields are
representable at their C++ widths): the normalization is an involution on all
four embedded timestamps and the two 32-bit opaque fields. -/
theorem C4_swap_endians_involution (m : NtpMessage) (h : m.Wf) :
    m.SwapEndiansIfNLE.SwapEndiansIfNLE = m := by
  obtain ⟨li, st, po, pr, sd, dr, id4, ⟨r1, r2⟩, ⟨o1, o2⟩, ⟨x1, x2⟩,
    ⟨t1, t2⟩⟩ := m
  obtain ⟨h1, h2, h3, h4, h5, h6, ⟨h7, h8⟩, ⟨h9, h10⟩, ⟨h11, h12⟩,
    ⟨h13, h14⟩⟩ := h
  simp [NtpMessage.SwapEndiansIfNLE, Timestamp.SwapEndiansIfNLE,
    byteswap32_involution sd h5, byteswap32_involution dr h6,
    byteswap32_involution r1 h7, byteswap32_involution r2 h8,
    byteswap32_involution o1 h9, byteswap32_involution o2 h10,
    byteswap32_involution x1 h11, byteswap32_involution x2 h12,
    byteswap32_involution t1 h13, byteswap32_involution t2 h14]

/-- A concrete message exercising the byte-order round trip. -/
def msgC4 : NtpMessage :=
  ⟨0x1C, 2, 6, 0xE9, 0x00010203, 0xFFFEFDFC, (10, 20, 30, 40),
    ⟨0x01020304, 0xA0B0C0D0⟩, ⟨0, 0xFFFFFFFF⟩, ⟨0xDEADBEEF, 1⟩,
    ⟨3923987981, 0x80000001⟩⟩

/-- C4 witness: the involution holds at a concrete well-formed message. -/
theorem C4_witness :
    NtpMessage.Wf msgC4 ∧ msgC4.SwapEndiansIfNLE.SwapEndiansIfNLE = msgC4 :=
  ⟨by decide, C4_swap_endians_involution msgC4 (by decide)⟩

/-- A call to one of the three packed-byte setters with its argument. -/
inductive SetterCall where
  | mode (v : Nat)
  | version (v : Nat)
  | leap (v : Nat)
  deriving DecidableEq, Repr

/-- Apply one setter call to a message. -/
def applySetter (m : NtpMessage) : SetterCall → NtpMessage
  | .mode v => m.SetMode v
  | .version v => m.SetVersion v
  | .leap v => m.SetLeapIndicator v

/-- Apply a sequence of setter calls, left to right. -/
def applySetters (m : NtpMessage) (ops : List SetterCall) : NtpMessage :=
  ops.foldl applySetter m

/-- The three packed-field values as the specification tracks them. -/
structure PackedFields where
  mode : Nat
  version : Nat
  leap : Nat
  deriving DecidableEq, Repr

/-- Specification-side effect of one setter call: record the value truncated
to the field's bit width, leaving the other two fields untouched. -/
def stepPacked (t : PackedFields) : SetterCall → PackedFields
  | .mode v => { t with mode := v % 8 }
  | .version v => { t with version := v % 8 }
  | .leap v => { t with leap := v % 4 }

/-- Specification-side effect of a sequence of setter calls. -/
def specPacked (t : PackedFields) (ops : List SetterCall) : PackedFields :=
  ops.foldl stepPacked t

theorem and_seven_eq_mod (v : Nat) : v &&& 7 = v % 8 := by
  have := Nat.and_pow_two_sub_one_eq_mod v 3
  norm_num at this
  exact this

theorem and_three_eq_mod (v : Nat) : v &&& 3 = v % 4 := by
  have := Nat.and_pow_two_sub_one_eq_mod v 2
  norm_num at this
  exact this

theorem setMode_fields (m : NtpMessage) (h : m.li_vn_mode < 256) (v : Nat) :
    (m.SetMode v).Mode = v % 8 ∧ (m.SetMode v).Version = m.Version ∧
      (m.SetMode v).LeapIndicator = m.LeapIndicator ∧
      (m.SetMode v).li_vn_mode < 256 := by
  obtain ⟨li, st, po, pr, sd, dr, id4, r, o, x, t⟩ := m
  simp only [NtpMessage.SetMode, NtpMessage.Mode, NtpMessage.Version,
    NtpMessage.LeapIndicator, kModeInvMask, kModeMask, kVersionShift,
    kVersionMask, kLeapShift, kLeapMask, and_seven_eq_mod v]
  have hkey : ∀ (a : Fin 256) (b : Fin 8),
      (((a.val &&& 0xF8) ||| b.val) % 256) &&& 0x07 = b.val ∧
        ((((a.val &&& 0xF8) ||| b.val) % 256) >>> 3) &&& 0x07 =
          (a.val >>> 3) &&& 0x07 ∧
        ((((a.val &&& 0xF8) ||| b.val) % 256) >>> 6) &&& 0x03 =
          (a.val >>> 6) &&& 0x03 ∧
        ((a.val &&& 0xF8) ||| b.val) % 256 < 256 := by decide
  exact hkey ⟨li, h⟩ ⟨v % 8, Nat.mod_lt _ (by norm_num)⟩

theorem setVersion_fields (m : NtpMessage) (h : m.li_vn_mode < 256)
    (v : Nat) :
    (m.SetVersion v).Version = v % 8 ∧ (m.SetVersion v).Mode = m.Mode ∧
      (m.SetVersion v).LeapIndicator = m.LeapIndicator ∧
      (m.SetVersion v).li_vn_mode < 256 := by
  obtain ⟨li, st, po, pr, sd, dr, id4, r, o, x, t⟩ := m
  simp only [NtpMessage.SetVersion, NtpMessage.Mode, NtpMessage.Version,
    NtpMessage.LeapIndicator, kVersionInvMask, kModeMask, kVersionShift,
    kVersionMask, kLeapShift, kLeapMask, and_seven_eq_mod v]
  have hkey : ∀ (a : Fin 256) (b : Fin 8),
      ((((a.val &&& 0xC7) ||| (b.val <<< 3)) % 256) >>> 3) &&& 0x07 =
          b.val ∧
        (((a.val &&& 0xC7) ||| (b.val <<< 3)) % 256) &&& 0x07 =
          a.val &&& 0x07 ∧
        ((((a.val &&& 0xC7) ||| (b.val <<< 3)) % 256) >>> 6) &&& 0x03 =
          (a.val >>> 6) &&& 0x03 ∧
        ((a.val &&& 0xC7) ||| (b.val <<< 3)) % 256 < 256 := by decide
  exact hkey ⟨li, h⟩ ⟨v % 8, Nat.mod_lt _ (by norm_num)⟩

theorem setLeap_fields (m : NtpMessage) (h : m.li_vn_mode < 256) (v : Nat) :
    (m.SetLeapIndicator v).LeapIndicator = v % 4 ∧
      (m.SetLeapIndicator v).Mode = m.Mode ∧
      (m.SetLeapIndicator v).Version = m.Version ∧
      (m.SetLeapIndicator v).li_vn_mode < 256 := by
  obtain ⟨li, st, po, pr, sd, dr, id4, r, o, x, t⟩ := m
  simp only [NtpMessage.SetLeapIndicator, NtpMessage.Mode, NtpMessage.Version,
    NtpMessage.LeapIndicator, kLeapInvMask, kModeMask, kVersionShift,
    kVersionMask, kLeapShift, kLeapMask, and_three_eq_mod v]
  have hkey : ∀ (a : Fin 256) (b : Fin 4),
      ((((a.val &&& 0x3F) ||| (b.val <<< 6)) % 256) >>> 6) &&& 0x03 =
          b.val ∧
        (((a.val &&& 0x3F) ||| (b.val <<< 6)) % 256) &&& 0x07 =
          a.val &&& 0x07 ∧
        ((((a.val &&& 0x3F) ||| (b.val <<< 6)) % 256) >>> 3) &&& 0x07 =
          (a.val >>> 3) &&& 0x07 ∧
        ((a.val &&& 0x3F) ||| (b.val <<< 6)) % 256 < 256 := by decide
  exact hkey ⟨li, h⟩ ⟨v % 4, Nat.mod_lt _ (by norm_num)⟩

/-- C5: from any packed-byte state, after any sequence and combination of
`SetMode`/`SetVersion`/`SetLeapIndicator` calls with any argument values,
each accessor reads back exactly the last value set for its own field
truncated to its bit width (3 bits for mode and version, 2 for the leap
indicator), and setting one field leaves the other two unchanged — the
accessors equal the specification-side record of the calls. -/
theorem C5_bit_packing_isolation (m : NtpMessage) (h : m.li_vn_mode < 256)
    (ops : List SetterCall) :
    (applySetters m ops).Mode =
        (specPacked ⟨m.Mode, m.Version, m.LeapIndicator⟩ ops).mode ∧
      (applySetters m ops).Version =
        (specPacked ⟨m.Mode, m.Version, m.LeapIndicator⟩ ops).version ∧
      (applySetters m ops).LeapIndicator =
        (specPacked ⟨m.Mode, m.Version, m.LeapIndicator⟩ ops).leap := by
  induction ops generalizing m with
  | nil => exact ⟨rfl, rfl, rfl⟩
  | cons c rest ih =>
    cases c with
    | mode v =>
      obtain ⟨e1, e2, e3, hlt⟩ := setMode_fields m h v
      have hrec := ih (m.SetMode v) hlt
      simp only [applySetters, List.foldl_cons, applySetter, specPacked,
        stepPacked] at hrec ⊢
      rw [e1, e2, e3] at hrec
      exact hrec
    | version v =>
      obtain ⟨e1, e2, e3, hlt⟩ := setVersion_fields m h v
      have hrec := ih (m.SetVersion v) hlt
      simp only [applySetters, List.foldl_cons, applySetter, specPacked,
        stepPacked] at hrec ⊢
      rw [e1, e2, e3] at hrec
      exact hrec
    | leap v =>
      obtain ⟨e1, e2, e3, hlt⟩ := setLeap_fields m h v
      have hrec := ih (m.SetLeapIndicator v) hlt
      simp only [applySetters, List.foldl_cons, applySetter, specPacked,
        stepPacked] at hrec ⊢
      rw [e1, e2, e3] at hrec
      exact hrec

/-- C5 witness: a concrete interleaved call sequence with in-range and
out-of-range arguments, starting from the all-zero message. -/
theorem C5_witness :
    NtpMessage.zero.li_vn_mode < 256 ∧
      ((applySetters NtpMessage.zero
            [SetterCall.version 3, SetterCall.mode 3, SetterCall.leap 9,
              SetterCall.mode 100]).Mode =
          (specPacked ⟨NtpMessage.zero.Mode, NtpMessage.zero.Version,
              NtpMessage.zero.LeapIndicator⟩
            [SetterCall.version 3, SetterCall.mode 3, SetterCall.leap 9,
              SetterCall.mode 100]).mode ∧
        (applySetters NtpMessage.zero
            [SetterCall.version 3, SetterCall.mode 3, SetterCall.leap 9,
              SetterCall.mode 100]).Version =
          (specPacked ⟨NtpMessage.zero.Mode, NtpMessage.zero.Version,
              NtpMessage.zero.LeapIndicator⟩
            [SetterCall.version 3, SetterCall.mode 3, SetterCall.leap 9,
              SetterCall.mode 100]).version ∧
        (applySetters NtpMessage.zero
            [SetterCall.version 3, SetterCall.mode 3, SetterCall.leap 9,
              SetterCall.mode 100]).LeapIndicator =
          (specPacked ⟨NtpMessage.zero.Mode, NtpMessage.zero.Version,
              NtpMessage.zero.LeapIndicator⟩
            [SetterCall.version 3, SetterCall.mode 3, SetterCall.leap 9,
              SetterCall.mode 100]).leap) :=
  ⟨by decide, C5_bit_packing_isolation NtpMessage.zero (by decide)
    [SetterCall.version 3, SetterCall.mode 3, SetterCall.leap 9,
      SetterCall.mode 100]⟩

/-- C9: whatever value the packed byte holds (set by setters or overwritten
by arbitrary received bytes), the accessors stay within their bit widths:
`Mode ≤ 7`, `Version ≤ 7`, `LeapIndicator ≤ 3`. -/
theorem C9_accessors_in_range (m : NtpMessage) :
    m.Mode ≤ 7 ∧ m.Version ≤ 7 ∧ m.LeapIndicator ≤ 3 :=
  ⟨Nat.and_le_right, Nat.and_le_right, Nat.and_le_right⟩

/-- C10: `IsValid` depends only on the mode bits, the leap-indicator bits,
the stratum byte and the transmit timestamp; two messages agreeing on those
validate identically, whatever their version, poll, precision, root delay,
root dispersion, reference id, or reference/origin/receive timestamps. -/
theorem C10_validation_noninterference (m1 m2 : NtpMessage)
    (hmode : m1.Mode = m2.Mode) (hleap : m1.LeapIndicator = m2.LeapIndicator)
    (hstratum : m1.stratum = m2.stratum) (htx : m1.tx = m2.tx) :
    m1.IsValid = m2.IsValid := by
  simp only [NtpMessage.IsValid, hmode, hleap, hstratum, htx]

/-- Two messages agreeing on mode/leap bits, stratum and transmit timestamp
but differing in version, poll, origin timestamp and reference id. -/
def msgC10a : NtpMessage :=
  { NtpMessage.zero with
    li_vn_mode := 0x1C
    stratum := 2
    poll := 1
    orig := ⟨9, 9⟩
    tx := ⟨5, 6⟩ }

/-- Counterpart of `msgC10a` with different version bits and reference id. -/
def msgC10b : NtpMessage :=
  { NtpMessage.zero with
    li_vn_mode := 0x24
    stratum := 2
    ref_clock_id := (1, 2, 3, 4)
    tx := ⟨5, 6⟩ }

/-- C10 witness: two concrete messages differing in the version field (and
other uninspected fields) validate identically. -/
theorem C10_witness :
    msgC10a.Version ≠ msgC10b.Version ∧ msgC10a.IsValid = msgC10b.IsValid :=
  ⟨by decide, C10_validation_noninterference msgC10a msgC10b (by decide)
    (by decide) (by decide) (by decide)⟩

/-- `NtpMessage::Receive`: a `recv` error propagates the system error code;
a short read (fewer than `sizeof(NtpMessage)` = 48 bytes) yields the
NTP-category `kInvalidResponse` code; otherwise the received record is
byte-order normalized and returned with the received count. -/
def NtpMessage.Receive (recvResult : Option (Nat × NtpMessage)) :
    Except SockErrorCode (Nat × NtpMessage) :=
  match recvResult with
  | none => .error .system
  | some (n, raw) =>
    if n < kNtpMessageSize then .error (.ntp .kInvalidResponse)
    else .ok (n, raw.SwapEndiansIfNLE)

/-- `NtpMessage::SendTo`: a copy of the message is byte-order normalized and
written with `sendto`; only `SOCKET_ERROR` is checked — the sent byte count
is returned as-is and never compared with the record size. -/
def NtpMessage.SendTo (m : NtpMessage) (sendResult : Option Nat) :
    Except SockErrorCode Nat :=
  match sendResult with
  | none => .error .system
  | some n => .ok n

/-- The request message the entry point builds: value-initialized, then
`SetVersion(kDefaultVersion)`, then `SetMode(kClientMode)`. -/
def requestMessage : NtpMessage :=
  (NtpMessage.zero.SetVersion kDefaultVersion).SetMode kClientMode

/-- `GetNtpTimestamp`, instrumented with the list of external calls it
makes. Each step mirrors the source: hostname guard, `WinsockScope`
(WSAStartup), `getaddrinfo` (failure, null result, or non-IPv4 family all
map to `kHostResolutionFailed`), socket creation, timeout configuration,
`SendTo`, `Receive` (any failure mapped to `kReceiveFailed`), validation,
and finally the transmit timestamp of the normalized response. -/
def GetNtpTimestamp (hostname : String) (env : NetEnv) :
    Except NtpError NtpTimestamp × List NetEvent :=
  if hostname.length = 0 ∨ kMaxHostnameLength < hostname.length then
    (.error .kInvalidHostname, [])
  else if env.wsaOk = false then
    (.error .kWsaInitFailed, [.wsaStartup])
  else if env.gaiRet ≠ 0 then
    (.error .kHostResolutionFailed, [.wsaStartup, .resolve])
  else
    match env.gaiResult with
    | none => (.error .kHostResolutionFailed, [.wsaStartup, .resolve])
    | some addr =>
      if addr.family ≠ AF_INET then
        (.error .kHostResolutionFailed, [.wsaStartup, .resolve])
      else if env.socketOk = false then
        (.error .kSocketCreationFailed,
          [.wsaStartup, .resolve, .socketCreate])
      else if env.timeoutOk = false then
        (.error .kTimeoutFailed,
          [.wsaStartup, .resolve, .socketCreate, .setTimeout])
      else
        match requestMessage.SendTo env.sendResult with
        | .error _ =>
          (.error .kSendFailed,
            [.wsaStartup, .resolve, .socketCreate, .setTimeout, .send])
        | .ok _ =>
          match NtpMessage.Receive env.recvResult with
          | .error _ =>
            (.error .kReceiveFailed,
              [.wsaStartup, .resolve, .socketCreate, .setTimeout, .send,
                .recv])
          | .ok (_, response) =>
            if response.IsValid = false then
              (.error .kInvalidResponse,
                [.wsaStartup, .resolve, .socketCreate, .setTimeout, .send,
                  .recv])
            else
              (.ok ⟨response.tx.seconds, response.tx.fraction⟩,
                [.wsaStartup, .resolve, .socketCreate, .setTimeout, .send,
                  .recv])

/-- The hostname guard condition of the entry point. -/
def hostnameRejected (hostname : String) : Prop :=
  hostname.length = 0 ∨ kMaxHostnameLength < hostname.length

instance (hostname : String) : Decidable (hostnameRejected hostname) := by
  unfold hostnameRejected
  infer_instance

/-- Resolution succeeds: `getaddrinfo` returned 0 with a non-null result
whose family is IPv4. -/
def resolveOk (env : NetEnv) : Bool :=
  env.gaiRet == 0 &&
    match env.gaiResult with
    | some addr => addr.family == AF_INET
    | none => false

/-- Modelled from the spec (§4.4): the first failing step of the priority
order invalid-hostname → network subsystem init → resolution (including
resolved-but-not-IPv4) → channel acquisition → timeout configuration →
send → receive → invalid-response, as the specification lists it, with
each step's failure condition as the code checks it. -/
def specFirstError (hostname : String) (env : NetEnv) : Option NtpError :=
  if hostnameRejected hostname then some .kInvalidHostname
  else if env.wsaOk = false then some .kWsaInitFailed
  else if resolveOk env = false then some .kHostResolutionFailed
  else if env.socketOk = false then some .kSocketCreationFailed
  else if env.timeoutOk = false then some .kTimeoutFailed
  else if env.sendResult = none then some .kSendFailed
  else
    match env.recvResult with
    | none => some .kReceiveFailed
    | some (n, raw) =>
      if n < kNtpMessageSize then some .kReceiveFailed
      else if raw.SwapEndiansIfNLE.IsValid = false then
        some .kInvalidResponse
      else none

/-- Modelled from the spec (§4.4): the result is the timestamp of the
validated response when no step fails, and the first error otherwise. -/
def specOutcome (hostname : String) (env : NetEnv) :
    Except NtpError NtpTimestamp :=
  match specFirstError hostname env with
  | some e => .error e
  | none =>
    match env.recvResult with
    | some (_, raw) =>
      .ok ⟨raw.SwapEndiansIfNLE.tx.seconds, raw.SwapEndiansIfNLE.tx.fraction⟩
    | none => .error .kReceiveFailed

/-- Modelled from the spec (§4.4): the external calls performed, stopping at
the first failing step — a failure at one step prevents all later steps. -/
def specTrace (hostname : String) (env : NetEnv) : List NetEvent :=
  if hostnameRejected hostname then []
  else if env.wsaOk = false then [.wsaStartup]
  else if resolveOk env = false then [.wsaStartup, .resolve]
  else if env.socketOk = false then [.wsaStartup, .resolve, .socketCreate]
  else if env.timeoutOk = false then
    [.wsaStartup, .resolve, .socketCreate, .setTimeout]
  else if env.sendResult = none then
    [.wsaStartup, .resolve, .socketCreate, .setTimeout, .send]
  else [.wsaStartup, .resolve, .socketCreate, .setTimeout, .send, .recv]

theorem getNtpTimestamp_eq_spec (hostname : String) (env : NetEnv) :
    GetNtpTimestamp hostname env =
      (specOutcome hostname env, specTrace hostname env) := by
  obtain ⟨w, gret, gres, sok, tok, sres, rres⟩ := env
  by_cases hh : hostname.length = 0 ∨ kMaxHostnameLength < hostname.length
  · simp [GetNtpTimestamp, specOutcome, specTrace, specFirstError,
      hostnameRejected, hh]
  · cases w with
    | false =>
      simp [GetNtpTimestamp, specOutcome, specTrace, specFirstError,
        hostnameRejected, hh]
    | true =>
      by_cases hg : gret = 0
      · cases gres with
        | none =>
          simp [GetNtpTimestamp, specOutcome, specTrace, specFirstError,
            hostnameRejected, resolveOk, hh, hg]
        | some addr =>
          by_cases hf : addr.family = AF_INET
          · cases sok with
            | false =>
              simp [GetNtpTimestamp, specOutcome, specTrace, specFirstError,
                hostnameRejected, resolveOk, hh, hg, hf]
            | true =>
              cases tok with
              | false =>
                simp [GetNtpTimestamp, specOutcome, specTrace,
                  specFirstError, hostnameRejected, resolveOk, hh, hg, hf]
              | true =>
                cases sres with
                | none =>
                  simp [GetNtpTimestamp, specOutcome, specTrace,
                    specFirstError, hostnameRejected, resolveOk,
                    NtpMessage.SendTo, hh, hg, hf]
                | some ns =>
                  cases rres with
                  | none =>
                    simp [GetNtpTimestamp, specOutcome, specTrace,
                      specFirstError, hostnameRejected, resolveOk,
                      NtpMessage.SendTo, NtpMessage.Receive, hh, hg, hf]
                  | some pr =>
                    obtain ⟨n, raw⟩ := pr
                    by_cases hn : n < kNtpMessageSize
                    · simp [GetNtpTimestamp, specOutcome, specTrace,
                        specFirstError, hostnameRejected, resolveOk,
                        NtpMessage.SendTo, NtpMessage.Receive, hh, hg, hf,
                        hn]
                    · cases hval : raw.SwapEndiansIfNLE.IsValid with
                      | false =>
                        simp [GetNtpTimestamp, specOutcome, specTrace,
                          specFirstError, hostnameRejected, resolveOk,
                          NtpMessage.SendTo, NtpMessage.Receive, hh, hg, hf,
                          hn, hval]
                      | true =>
                        simp [GetNtpTimestamp, specOutcome, specTrace,
                          specFirstError, hostnameRejected, resolveOk,
                          NtpMessage.SendTo, NtpMessage.Receive, hh, hg, hf,
                          hn, hval]
          · simp [GetNtpTimestamp, specOutcome, specTrace, specFirstError,
              hostnameRejected, resolveOk, hh, hg, hf]
      · simp [GetNtpTimestamp, specOutcome, specTrace, specFirstError,
          hostnameRejected, resolveOk, hh, hg]

/-- C7: the entry point returns either the resulting timestamp or the first
error encountered, with the fallible steps checked in exactly the priority
order invalid-hostname → network-subsystem-init → resolution (including
resolved-but-not-IPv4) → channel acquisition → timeout configuration →
send → receive → invalid-response; a failure at one step prevents all later
steps (the call trace stops at the failing step). -/
theorem C7_first_error_priority (hostname : String) (env : NetEnv) :
    (GetNtpTimestamp hostname env).1 = specOutcome hostname env ∧
      (GetNtpTimestamp hostname env).2 = specTrace hostname env := by
  rw [getNtpTimestamp_eq_spec]
  exact ⟨rfl, rfl⟩

theorem specFirstError_eq_invalidHostname_iff (hostname : String)
    (env : NetEnv) :
    specFirstError hostname env = some NtpError.kInvalidHostname ↔
      hostnameRejected hostname := by
  unfold specFirstError
  by_cases hh : hostnameRejected hostname
  · simp [hh]
  · simp only [if_neg hh]
    rcases hr : env.recvResult with _ | ⟨n, raw⟩ <;> split_ifs <;>
      simp_all <;> try (split_ifs <;> simp_all)

/-- C6: the entry point returns the invalid-hostname error exactly when the
hostname is empty or longer than 253 characters; a rejected hostname causes
no external call at all (empty trace, so no I/O and no resolution attempt),
while an accepted hostname (with the network subsystem up) reaches the
resolution step. -/
theorem C6_hostname_guard :
    (∀ (hostname : String) (env : NetEnv),
        (GetNtpTimestamp hostname env).1 = .error .kInvalidHostname ↔
          (hostname.length = 0 ∨ 253 < hostname.length)) ∧
      (∀ (hostname : String) (env : NetEnv),
        (hostname.length = 0 ∨ 253 < hostname.length) →
          (GetNtpTimestamp hostname env).2 = []) ∧
      (∀ (hostname : String) (env : NetEnv),
        ¬(hostname.length = 0 ∨ 253 < hostname.length) →
          env.wsaOk = true →
          NetEvent.resolve ∈ (GetNtpTimestamp hostname env).2) := by
  refine ⟨fun hostname env => ?_, fun hostname env h => ?_,
    fun hostname env h hw => ?_⟩
  · rw [getNtpTimestamp_eq_spec]
    show specOutcome hostname env = _ ↔ hostnameRejected hostname
    unfold specOutcome
    rcases hfe : specFirstError hostname env with _ | e
    · have hnr : ¬hostnameRejected hostname := by
        intro hcon
        have hcon2 :=
          (specFirstError_eq_invalidHostname_iff hostname env).2 hcon
        rw [hfe] at hcon2
        cases hcon2
      rcases hr : env.recvResult with _ | ⟨n, raw⟩ <;> simp [hnr]
    · have hiff := specFirstError_eq_invalidHostname_iff hostname env
      rw [hfe] at hiff
      simp only [Option.some.injEq] at hiff
      simp [hiff]
  · rw [getNtpTimestamp_eq_spec]
    show specTrace hostname env = []
    have hh : hostnameRejected hostname := h
    simp [specTrace, hh]
  · rw [getNtpTimestamp_eq_spec]
    show NetEvent.resolve ∈ specTrace hostname env
    have hh : ¬hostnameRejected hostname := h
    unfold specTrace
    split_ifs <;> simp_all

/-- An environment in which every step succeeds and the server delivers a
valid 48-byte response (`rawC8`, in network byte order). -/
def rawC8 : NtpMessage :=
  { NtpMessage.zero with
    li_vn_mode := 0x1C
    stratum := 1
    tx := ⟨0x01000000, 0⟩ }

/-- All collaborators succeed; the reply is `rawC8`, delivered whole. -/
def envAllOk : NetEnv :=
  { wsaOk := true
    gaiRet := 0
    gaiResult := some ⟨2⟩
    socketOk := true
    timeoutOk := true
    sendResult := some 48
    recvResult := some (48, rawC8) }

/-- A 253-character hostname (the DNS maximum, accepted). -/
def host253 : String := String.mk (List.replicate 253 'a')

/-- A 254-character hostname (over the DNS maximum, rejected). -/
def host254 : String := String.mk (List.replicate 254 'a')

/-- C6 witness: the 253-character hostname passes the guard and reaches
resolution; the 254-character hostname is rejected with an empty trace; the
empty hostname yields the invalid-hostname error. -/
theorem C6_witness :
    NetEvent.resolve ∈ (GetNtpTimestamp host253 envAllOk).2 ∧
      (GetNtpTimestamp host254 envAllOk).2 = [] ∧
      ((GetNtpTimestamp "" envAllOk).1 = .error .kInvalidHostname ↔
        (String.length "" = 0 ∨ 253 < String.length "")) :=
  ⟨C6_hostname_guard.2.2 host253 envAllOk (by decide) (by decide),
    C6_hostname_guard.2.1 host254 envAllOk (by decide),
    C6_hostname_guard.1 "" envAllOk⟩

/-- All steps up to the exchange succeed; `sendto` reports 10 bytes written
(fewer than the 48-byte record) without a channel error; `recv` then fails. -/
def envC3 : NetEnv :=
  { wsaOk := true
    gaiRet := 0
    gaiResult := some ⟨2⟩
    socketOk := true
    timeoutOk := true
    sendResult := some 10
    recvResult := none }

/-- C3 counterexample: when the channel writes only 10 of the 48 bytes but
reports no channel-level failure, the operation does NOT terminate with a
send error — `SendTo` never compares the sent count with the record size —
and it does proceed to receive. -/
theorem C3_counterexample :
    requestMessage.SendTo envC3.sendResult = .ok 10 ∧
      (GetNtpTimestamp "a" envC3).1 = .error .kReceiveFailed ∧
      NetEvent.recv ∈ (GetNtpTimestamp "a" envC3).2 := by
  refine ⟨rfl, rfl, ?_⟩
  show NetEvent.recv ∈ [NetEvent.wsaStartup, .resolve, .socketCreate,
    .setTimeout, .send, .recv]
  simp

/-- C3 (amended): a channel-level send failure is a terminal send error —
the exchange makes no retry (exactly one send attempt in the trace) and
never proceeds to receive; a short write count reported without a
channel-level failure, however, is accepted and the exchange proceeds. -/
theorem C3_send_failure_terminal (hostname : String) (env : NetEnv)
    (hh : ¬(hostname.length = 0 ∨ 253 < hostname.length))
    (hw : env.wsaOk = true) (hr : resolveOk env = true)
    (hs : env.socketOk = true) (ht : env.timeoutOk = true)
    (hsend : env.sendResult = none) :
    (GetNtpTimestamp hostname env).1 = .error .kSendFailed ∧
      NetEvent.recv ∉ (GetNtpTimestamp hostname env).2 ∧
      ((GetNtpTimestamp hostname env).2.count NetEvent.send) = 1 := by
  rw [getNtpTimestamp_eq_spec]
  have hh2 : ¬hostnameRejected hostname := hh
  refine ⟨?_, ?_, ?_⟩
  · show specOutcome hostname env = _
    simp [specOutcome, specFirstError, hh2, hw, hr, hs, ht, hsend]
  · show NetEvent.recv ∉ specTrace hostname env
    simp [specTrace, hh2, hw, hr, hs, ht, hsend]
  · show (specTrace hostname env).count NetEvent.send = 1
    simp [specTrace, hh2, hw, hr, hs, ht, hsend]

/-- Environment for the C3 witness: the channel errors on send. -/
def envC3w : NetEnv :=
  { envC3 with sendResult := none }

/-- C3 witness: with a channel-level send failure, the call returns the
send error, never calls receive, and makes exactly one send attempt. -/
theorem C3_witness :
    (GetNtpTimestamp "a" envC3w).1 = .error .kSendFailed ∧
      NetEvent.recv ∉ (GetNtpTimestamp "a" envC3w).2 ∧
      ((GetNtpTimestamp "a" envC3w).2.count NetEvent.send) = 1 :=
  C3_send_failure_terminal "a" envC3w (by decide) (by decide) (by decide)
    (by decide) (by decide) (by decide)

/-- All steps succeed but the server reply is truncated: `recv` delivers
only 10 bytes, with no channel-level error. -/
def envC2 : NetEnv :=
  { envC3 with
    sendResult := some 48
    recvResult := some (10, NtpMessage.zero) }

/-- C2: a short read makes `NtpMessage::Receive` itself return the
NTP-category invalid-response error code — distinct from the system-category
code of a channel-level receive failure — but the public entry point
discards that distinction and maps every `Receive` failure, the short read
included, to the receive-failed error kind, so the call does NOT return the
invalid-response kind. -/
theorem C2_short_read_behavior :
    NtpMessage.Receive envC2.recvResult =
        .error (.ntp .kInvalidResponse) ∧
      NtpMessage.Receive envC3.recvResult = .error .system ∧
      (GetNtpTimestamp "a" envC2).1 = .error .kReceiveFailed ∧
      (GetNtpTimestamp "a" envC2).1 ≠ .error .kInvalidResponse := by
  refine ⟨rfl, rfl, rfl, ?_⟩
  intro hcon
  rw [show (GetNtpTimestamp "a" envC2).1 =
    Except.error NtpError.kReceiveFailed from rfl] at hcon
  cases hcon

/-- C8: whenever the entry point succeeds, the returned pair is exactly the
(seconds, fraction) of the byte-order-normalized response's transmit
timestamp, unchanged — no epoch conversion or offset computation — and that
response passed the validity predicate. -/
theorem C8_success_returns_tx_unchanged (hostname : String) (env : NetEnv)
    (ts : NtpTimestamp) (h : (GetNtpTimestamp hostname env).1 = .ok ts) :
    ∃ n raw, env.recvResult = some (n, raw) ∧
      raw.SwapEndiansIfNLE.IsValid = true ∧
      ts.seconds = raw.SwapEndiansIfNLE.tx.seconds ∧
      ts.fraction = raw.SwapEndiansIfNLE.tx.fraction := by
  rw [getNtpTimestamp_eq_spec] at h
  replace h : specOutcome hostname env = .ok ts := h
  unfold specOutcome at h
  rcases hfe : specFirstError hostname env with _ | e
  · rw [hfe] at h
    rcases hr : env.recvResult with _ | ⟨n, raw⟩
    · rw [hr] at h
      cases h
    · rw [hr] at h
      simp only [Except.ok.injEq] at h
      subst h
      refine ⟨n, raw, rfl, ?_, rfl, rfl⟩
      unfold specFirstError at hfe
      rw [hr] at hfe
      split_ifs at hfe <;> simp_all <;>
        try (split_ifs at hfe <;> simp_all)
  · rw [hfe] at h
    cases h

/-- C8 witness: in the all-success environment the call returns exactly the
normalized transmit timestamp of `rawC8`. -/
theorem C8_witness :
    ∃ n raw, envAllOk.recvResult = some (n, raw) ∧
      raw.SwapEndiansIfNLE.IsValid = true ∧
      (NtpTimestamp.mk 1 0).seconds = raw.SwapEndiansIfNLE.tx.seconds ∧
      (NtpTimestamp.mk 1 0).fraction = raw.SwapEndiansIfNLE.tx.fraction :=
  C8_success_returns_tx_unchanged "a" envAllOk ⟨1, 0⟩ (by rfl)

end NtpClient
